import Mathlib

/-!
Verification of the `@xyz/payment` provider library against its specification.

The development shallowly embeds the TypeScript sources under `src/`:

* `src/provider/console.ts` (Console and Stripe adapters),
* `src/provider/creem.ts`, `src/provider/dodopayments.ts`,
  `src/provider/lemonsqueezy.ts`, `src/provider/tap.ts`,
* the Polar adapter (`src/unnamed/part_001`),
* the shared types (`src/types.ts`).

External platform primitives used by the sources are modelled concretely:
`node:crypto` HMAC-SHA256 is implemented bit-for-bit (FIPS 180-4), JavaScript
`JSON.parse` is implemented as an executable recursive-descent parser over the
grammar it accepts, and `crypto.timingSafeEqual` is modelled by its documented
observable behaviour (throws on differing buffer lengths, otherwise equality).
Network calls (`fetch`) are modelled by threading an explicit world giving each
call's response, and each operation returns the list of outbound calls it made,
in order.
-/

set_option maxRecDepth 10000
set_option maxHeartbeats 4000000

namespace XyzPayment

/-! ## Bytes, UTF-8 and hex -/

/-- UTF-8 encoding of a single character, as Node's Buffer.from(s, "utf8")
produces for each code point. -/
def charUtf8 (c : Char) : List Nat :=
  let v := c.toNat
  if v < 0x80 then [v]
  else if v < 0x800 then [0xc0 + v / 64, 0x80 + v % 64]
  else if v < 0x10000 then
    [0xe0 + v / 4096, 0x80 + (v / 64) % 64, 0x80 + v % 64]
  else
    [0xf0 + v / 262144, 0x80 + (v / 4096) % 64, 0x80 + (v / 64) % 64, 0x80 + v % 64]

/-- UTF-8 bytes of a string. -/
def strBytes (s : String) : List Nat :=
  s.data.flatMap charUtf8

/-- Byte length of a string's UTF-8 encoding (Node Buffer.byteLength). -/
def strUtf8Len (s : String) : Nat :=
  (strBytes s).length

/-- Lower-case hex digit for a value below 16. -/
def hexDigit (n : Nat) : Char :=
  if n < 10 then Char.ofNat (48 + n) else Char.ofNat (87 + n)

/-- Lower-case hex rendering of a byte list (digest("hex")). -/
def bytesToHex (bs : List Nat) : String :=
  String.mk (bs.flatMap fun b => [hexDigit (b / 16), hexDigit (b % 16)])

/-! ## SHA-256 (FIPS 180-4) and HMAC (RFC 2104) -/

/-- Right rotation of a 32-bit word. -/
def rotr32 (n x : Nat) : Nat :=
  ((x >>> n) ||| (x <<< (32 - n))) % 4294967296

/-- The 64 SHA-256 round constants of FIPS 180-4, in decimal. -/
def shaK : List Nat :=
  [1116352408, 1899447441, 3049323471, 3921009573, 961987163,
   1508970993, 2453635748, 2870763221, 3624381080, 310598401,
   607225278, 1426881987, 1925078388, 2162078206, 2614888103,
   3248222580, 3835390401, 4022224774, 264347078, 604807628,
   770255983, 1249150122, 1555081692, 1996064986, 2554220882,
   2821834349, 2952996808, 3210313671, 3336571891, 3584528711,
   113926993, 338241895, 666307205, 773529912, 1294757372,
   1396182291, 1695183700, 1986661051, 2177026350, 2456956037,
   2730485921, 2820302411, 3259730800, 3345764771, 3516065817,
   3600352804, 4094571909, 275423344, 430227734, 506948616,
   659060556, 883997877, 958139571, 1322822218, 1537002063,
   1747873779, 1955562222, 2024104815, 2227730452, 2361852424,
   2428436474, 2756734187, 3204031479, 3329325298]

/-- The SHA-256 initial hash value of FIPS 180-4, in decimal. -/
def shaH0 : List Nat :=
  [1779033703, 3144134277, 1013904242, 2773480762,
   1359893119, 2600822924, 528734635, 1541459225]

/-- A 64-bit big-endian length, as 8 bytes. -/
def be64 (n : Nat) : List Nat :=
  [(n >>> 56) % 256, (n >>> 48) % 256, (n >>> 40) % 256, (n >>> 32) % 256,
   (n >>> 24) % 256, (n >>> 16) % 256, (n >>> 8) % 256, n % 256]

/-- SHA-256 padding: 0x80, zeros to 56 mod 64, then the bit length. -/
def shaPad (msg : List Nat) : List Nat :=
  let len := msg.length
  let zeros := (64 - (len + 9) % 64) % 64
  msg ++ [0x80] ++ List.replicate zeros 0 ++ be64 (8 * len)

/-- 4 bytes big-endian at a time into 32-bit words. -/
def bytesToWords : List Nat → List Nat
  | a :: b :: c :: d :: rest => (a <<< 24 + b <<< 16 + c <<< 8 + d) :: bytesToWords rest
  | _ => []

/-- Message-schedule extension: append the next derived word, n times. -/
def shaExtend (w : List Nat) : Nat → List Nat
  | 0 => w
  | n + 1 =>
    let w1 := shaExtend w n
    let i := w1.length
    let g := fun (k : Nat) => w1.getD (i - k) 0
    let s0 := (rotr32 7 (g 15)) ^^^ (rotr32 18 (g 15)) ^^^ ((g 15) >>> 3)
    let s1 := (rotr32 17 (g 2)) ^^^ (rotr32 19 (g 2)) ^^^ ((g 2) >>> 10)
    w1 ++ [(g 16 + s0 + g 7 + s1) % 4294967296]

/-- The eight working registers of the compression loop. -/
structure ShaState where
  a : Nat
  b : Nat
  c : Nat
  d : Nat
  e : Nat
  f : Nat
  g : Nat
  h : Nat

/-- One round of the SHA-256 compression function. -/
def shaRound (st : ShaState) (ki wi : Nat) : ShaState :=
  let s1 := (rotr32 6 st.e) ^^^ (rotr32 11 st.e) ^^^ (rotr32 25 st.e)
  let ch := (st.e &&& st.f) ^^^ ((st.e ^^^ 4294967295) &&& st.g)
  let t1 := (st.h + s1 + ch + ki + wi) % 4294967296
  let s0 := (rotr32 2 st.a) ^^^ (rotr32 13 st.a) ^^^ (rotr32 22 st.a)
  let mj := (st.a &&& st.b) ^^^ (st.a &&& st.c) ^^^ (st.b &&& st.c)
  let t2 := (s0 + mj) % 4294967296
  ⟨(t1 + t2) % 4294967296, st.a, st.b, st.c, (st.d + t1) % 4294967296, st.e, st.f, st.g⟩

/-- Compress one 64-byte block into the running hash (eight words). -/
def shaCompress (hs : List Nat) (block : List Nat) : List Nat :=
  let w := shaExtend (bytesToWords block) 48
  let init : ShaState :=
    ⟨hs.getD 0 0, hs.getD 1 0, hs.getD 2 0, hs.getD 3 0,
     hs.getD 4 0, hs.getD 5 0, hs.getD 6 0, hs.getD 7 0⟩
  let fin := (List.zip shaK w).foldl (fun st p => shaRound st p.1 p.2) init
  [(hs.getD 0 0 + fin.a) % 4294967296, (hs.getD 1 0 + fin.b) % 4294967296,
   (hs.getD 2 0 + fin.c) % 4294967296, (hs.getD 3 0 + fin.d) % 4294967296,
   (hs.getD 4 0 + fin.e) % 4294967296, (hs.getD 5 0 + fin.f) % 4294967296,
   (hs.getD 6 0 + fin.g) % 4294967296, (hs.getD 7 0 + fin.h) % 4294967296]

/-- Split into 64-byte chunks; the fuel bounds the number of chunks. -/
def chunksGo : Nat → List Nat → List (List Nat)
  | 0, _ => []
  | _ + 1, [] => []
  | n + 1, l => l.take 64 :: chunksGo n (l.drop 64)

/-- Split a (padded) message into its 64-byte blocks. -/
def chunks64 (l : List Nat) : List (List Nat) :=
  chunksGo (l.length + 1) l

/-- The 32 digest bytes of SHA-256 over a byte list. -/
def sha256 (msg : List Nat) : List Nat :=
  let words := (chunks64 (shaPad msg)).foldl shaCompress shaH0
  words.flatMap fun w => [(w >>> 24) % 256, (w >>> 16) % 256, (w >>> 8) % 256, w % 256]

/-- HMAC-SHA256 over byte lists (RFC 2104: keys longer than the block are
hashed first, shorter keys are zero-padded to 64 bytes). -/
def hmacSha256 (key msg : List Nat) : List Nat :=
  let k0 := if key.length > 64 then sha256 key else key
  let kPad := k0 ++ List.replicate (64 - k0.length) 0
  let ipad := kPad.map fun b => b ^^^ 0x36
  let opad := kPad.map fun b => b ^^^ 0x5c
  sha256 (opad ++ sha256 (ipad ++ msg))

/-- Node's createHmac("sha256", key).update(msg).digest("hex") on strings. -/
def hmacHex (key msg : String) : String :=
  bytesToHex (hmacSha256 (strBytes key) (strBytes msg))

/-! ## JSON values and JSON.parse

JavaScript `JSON.parse` is modelled as an executable parser for the JSON
grammar; numbers are kept as their source text (no numeric semantics of
JavaScript floats is needed by any webhook handler). With duplicate keys the
later occurrence wins, as in JavaScript object literals. -/

/-- A parsed JSON value. Numbers carry their raw source text. -/
inductive Json where
  | null
  | bool (b : Bool)
  | num (raw : String)
  | str (s : String)
  | arr (elems : List Json)
  | obj (fields : List (String × Json))

/-- Discriminator for the JSON null value. -/
def Json.isNull : Json → Bool
  | .null => true
  | _ => false

/-- Field lookup on a JSON object field list, later duplicate keys winning as
in JavaScript. -/
def objLookup (fs : List (String × Json)) (k : String) : Option Json :=
  match fs with
  | [] => none
  | (k1, v) :: rest =>
    match objLookup rest k with
    | some r => some r
    | none => if k1 = k then some v else none

/-- Property access `j.k` as JavaScript evaluates it on a JSON.parse result:
objects yield the field (or undefined = none), every non-object non-null value
yields undefined; access on null throws, which callers model separately. -/
def jsField (j : Json) (k : String) : Option Json :=
  match j with
  | .obj fs => objLookup fs k
  | _ => none

/-- Optional chaining `v?.k` for a possibly-undefined value: undefined and
null propagate to undefined, non-objects yield undefined. -/
def jsOptField (v : Option Json) (k : String) : Option Json :=
  match v with
  | none => none
  | some .null => none
  | some j => jsField j k

/-- Numeric value of a digit list. -/
def digitsVal (ds : List Char) : Nat :=
  ds.foldl (fun acc c => 10 * acc + (c.toNat - 48)) 0

/-- Split a character list at the first separator the predicate accepts:
the part before it and the part after it (everything, when absent). -/
def splitAtChar (p : Char → Bool) : List Char → List Char × List Char
  | [] => ([], [])
  | c :: rest =>
    if p c then ([], rest)
    else
      let q := splitAtChar p rest
      (c :: q.1, q.2)

/-- Mantissa and scale of a JSON numeral: a pair (m, t) with the numeral's
magnitude equal to m * 10 ^ (-t) — m the mantissa digits read as an integer
(sign and decimal point dropped) and t the fraction length minus the
exponent. -/
def numParts (raw : String) : Nat × Int :=
  let cs :=
    match raw.data with
    | '-' :: r => r
    | r => r
  let me := splitAtChar (fun c => c = 'e' || c = 'E') cs
  let ifr := splitAtChar (fun c => c = '.') me.1
  let expVal : Int :=
    match me.2 with
    | '+' :: r => (digitsVal r : Int)
    | '-' :: r => -(digitsVal r : Int)
    | r => (digitsVal r : Int)
  (digitsVal (ifr.1 ++ ifr.2), (ifr.2.length : Int) - expVal)

/-- Is a JSON numeral falsy, i.e. does JSON.parse turn it into the
JavaScript number 0 (of either sign)? That happens exactly when the
mantissa digits are all zero — in any spelling, 0, -0.00 or 0e5 alike — or
when the magnitude is at most 2 ^ (-1075), the round-half-to-even midpoint
below the smallest subnormal double, so correct rounding underflows to
zero. -/
def jsNumFalsy (raw : String) : Bool :=
  let p := numParts raw
  (p.1 == 0)
  || (decide ((0 : Int) < p.2) && decide (p.1 * 2 ^ 1075 ≤ 10 ^ p.2.toNat))

/-- JavaScript truthiness of a JSON value (falsy: null, false, numerals
whose double value is 0, ""). -/
def jsTruthy : Json → Bool
  | .null => false
  | .bool b => b
  | .num raw => !jsNumFalsy raw
  | .str s => !s.isEmpty
  | .arr _ => true
  | .obj _ => true

/-- Truthiness of a possibly-undefined value. -/
def jsTruthyO : Option Json → Bool
  | none => false
  | some j => jsTruthy j

/-- JSON whitespace. -/
def isJsonWs (c : Char) : Bool :=
  c = ' ' || c = '\t' || c = '\n' || c = '\r'

/-- Drop leading JSON whitespace. -/
def skipWs : List Char → List Char
  | [] => []
  | c :: rest => if isJsonWs c then skipWs rest else c :: rest

/-- Decimal digit test. -/
def isDigitCh (c : Char) : Bool :=
  48 ≤ c.toNat && c.toNat ≤ 57

/-- Hexadecimal digit value, if any. -/
def hexVal (c : Char) : Option Nat :=
  let v := c.toNat
  if 48 ≤ v && v ≤ 57 then some (v - 48)
  else if 97 ≤ v && v ≤ 102 then some (v - 87)
  else if 65 ≤ v && v ≤ 70 then some (v - 55)
  else none

/-- Four hex digits of a \u escape. -/
def parseHex4 : List Char → Option (Nat × List Char)
  | a :: b :: c :: d :: rest =>
    match hexVal a, hexVal b, hexVal c, hexVal d with
    | some x, some y, some z, some w => some (4096 * x + 256 * y + 16 * z + w, rest)
    | _, _, _, _ => none
  | _ => none

/-- Body of a JSON string after the opening quote, handling escapes and
rejecting raw control characters; returns the decoded characters and the rest
after the closing quote. -/
def parseStrChars : Nat → List Char → Option (List Char × List Char)
  | 0, _ => none
  | _ + 1, [] => none
  | fuel + 1, c :: rest =>
    if c = '"' then some ([], rest)
    else if c = '\\' then
      match rest with
      | [] => none
      | e :: rest2 =>
        if e = 'u' then
          match parseHex4 rest2 with
          | some (n, rest3) =>
            (parseStrChars fuel rest3).map fun p => (Char.ofNat n :: p.1, p.2)
          | none => none
        else
          match
            (if e = '"' then some '"'
             else if e = '\\' then some '\\'
             else if e = '/' then some '/'
             else if e = 'b' then some (Char.ofNat 8)
             else if e = 'f' then some (Char.ofNat 12)
             else if e = 'n' then some '\n'
             else if e = 'r' then some '\r'
             else if e = 't' then some '\t'
             else none) with
          | some d => (parseStrChars fuel rest2).map fun p => (d :: p.1, p.2)
          | none => none
    else if c.toNat < 32 then none
    else (parseStrChars fuel rest).map fun p => (c :: p.1, p.2)

/-- Longest digit prefix. -/
def takeDigits : List Char → (List Char × List Char)
  | [] => ([], [])
  | c :: rest =>
    if isDigitCh c then
      let p := takeDigits rest
      (c :: p.1, p.2)
    else ([], c :: rest)

/-- A JSON number literal: raw text and the remainder. -/
def parseNumber (cs : List Char) : Option (String × List Char) :=
  let signed : List Char × List Char :=
    match cs with
    | '-' :: rest => (['-'], rest)
    | _ => ([], cs)
  match takeDigits signed.2 with
  | ([], _) => none
  | (ds, rest1) =>
    if ds.length > 1 && ds.headD '0' = '0' then none
    else
      let intPart := signed.1 ++ ds
      let withFrac : Option (List Char × List Char) :=
        match rest1 with
        | '.' :: rest2 =>
          match takeDigits rest2 with
          | ([], _) => none
          | (fs, rest3) => some (intPart ++ '.' :: fs, rest3)
        | _ => some (intPart, rest1)
      match withFrac with
      | none => none
      | some (txt, rest4) =>
        match rest4 with
        | e :: rest5 =>
          if e = 'e' || e = 'E' then
            let esigned : List Char × List Char :=
              match rest5 with
              | '+' :: r => (['+'], r)
              | '-' :: r => (['-'], r)
              | _ => ([], rest5)
            match takeDigits esigned.2 with
            | ([], _) => none
            | (es, rest6) => some (String.mk (txt ++ e :: esigned.1 ++ es), rest6)
          else some (String.mk txt, rest4)
        | [] => some (String.mk txt, [])

/-- Comma-separated array elements up to the closing bracket, parsing each
element with the supplied value parser; the fuel bounds the element count. -/
def parseElemsWith (pv : List Char → Option (Json × List Char)) :
    Nat → Bool → List Char → Option (List Json × List Char)
  | 0, _, _ => none
  | fuel + 1, isFirst, cs =>
    match skipWs cs with
    | [] => none
    | c :: rest =>
      if c = ']' && isFirst then some ([], rest)
      else
        match pv (skipWs (c :: rest)) with
        | none => none
        | some (v, rest1) =>
          match skipWs rest1 with
          | ']' :: rest2 => some ([v], rest2)
          | ',' :: rest2 =>
            match parseElemsWith pv fuel false rest2 with
            | some (vs, rest3) =>
              if vs.isEmpty then none else some (v :: vs, rest3)
            | none => none
          | _ => none

/-- Comma-separated object members up to the closing brace; the fuel bounds
the member count. -/
def parseMembersWith (pv : List Char → Option (Json × List Char)) :
    Nat → Bool → List Char → Option (List (String × Json) × List Char)
  | 0, _, _ => none
  | fuel + 1, isFirst, cs =>
    match skipWs cs with
    | [] => none
    | c :: rest =>
      if c = Char.ofNat 125 && isFirst then some ([], rest)
      else if c = '"' then
        match parseStrChars (rest.length + 1) rest with
        | none => none
        | some (key, rest1) =>
          match skipWs rest1 with
          | ':' :: rest2 =>
            match pv (skipWs rest2) with
            | none => none
            | some (v, rest3) =>
              match skipWs rest3 with
              | d :: rest4 =>
                if d = Char.ofNat 125 then some ([(String.mk key, v)], rest4)
                else if d = ',' then
                  match parseMembersWith pv fuel false rest4 with
                  | some (ms, rest5) =>
                    if ms.isEmpty then none else some ((String.mk key, v) :: ms, rest5)
                  | none => none
                else none
              | [] => none
          | _ => none
      else none

/-- A JSON value; the fuel bounds the nesting depth. -/
def parseVal : Nat → List Char → Option (Json × List Char)
  | 0, _ => none
  | fuel + 1, cs =>
    match skipWs cs with
    | [] => none
    | c :: rest =>
      if c = Char.ofNat 123 then
        match parseMembersWith (fun l => parseVal fuel l) (rest.length + 1) true rest with
        | some (ms, rest1) => some (.obj ms, rest1)
        | none => none
      else if c = '[' then
        match parseElemsWith (fun l => parseVal fuel l) (rest.length + 1) true rest with
        | some (vs, rest1) => some (.arr vs, rest1)
        | none => none
      else if c = '"' then
        match parseStrChars (rest.length + 1) rest with
        | some (s, rest1) => some (.str (String.mk s), rest1)
        | none => none
      else
        match c :: rest with
        | 't' :: 'r' :: 'u' :: 'e' :: rest1 => some (.bool true, rest1)
        | 'f' :: 'a' :: 'l' :: 's' :: 'e' :: rest1 => some (.bool false, rest1)
        | 'n' :: 'u' :: 'l' :: 'l' :: rest1 => some (.null, rest1)
        | cs1 =>
          match parseNumber cs1 with
          | some (raw, rest1) => some (.num raw, rest1)
          | none => none

/-- JavaScript JSON.parse: none models a thrown SyntaxError. -/
def jsonParse (s : String) : Option Json :=
  match parseVal (s.data.length + 1) s.data with
  | some (j, rest) => if (skipWs rest).isEmpty then some j else none
  | none => none

/-! ## HTTP model and configuration

A webhook request is the data the handlers read from the fetch-API Request:
method, header map and body (none models a null body stream). Header names
are stored lower-case, as the Headers class normalizes them and as every
`headers.get` call in the sources queries them. `process.env` is an explicit
structure of optional variables. -/

/-- The parts of a fetch-API Request the handlers consume. -/
structure HttpRequest where
  method : String := "POST"
  headers : List (String × String) := []
  body : Option String := none

/-- The Response the handlers produce: status and optional text body. -/
structure HttpResponse where
  status : Nat
  body : Option String := none
deriving DecidableEq

/-- Headers.get: the header value, or none when absent. -/
def getHeader (hs : List (String × String)) (k : String) : Option String :=
  match hs with
  | [] => none
  | (k1, v) :: rest => if k1 = k then some v else getHeader rest k

/-- The process environment variables the adapters read. -/
structure Env where
  stripeSecretKey : Option String := none
  stripeWebhookSecret : Option String := none
  lemonApiKey : Option String := none
  lemonStoreId : Option String := none
  lemonWebhookSecret : Option String := none
  polarAccessToken : Option String := none
  polarWebhookSecret : Option String := none
  creemApiKey : Option String := none
  creemWebhookSecret : Option String := none
  dodoApiKey : Option String := none
  dodoWebhookSecret : Option String := none
  tapSecretKey : Option String := none
  tapWebhookSecret : Option String := none
  nodeEnvProduction : Bool := false

/-- A configured environment variable as the sources test it: `if (!v)`
treats both an unset variable and an empty string as missing. -/
def envString (v : Option String) : Option String :=
  match v with
  | none => none
  | some s => if s = "" then none else some s

/-- A header value as the sources test it with `if (!h)`: absent or empty
counts as missing. -/
def headerString (hs : List (String × String)) (k : String) : Option String :=
  envString (getHeader hs k)

/-! ## Webhook handlers

One pure function per provider, `Env → HttpRequest → HttpResponse`,
translated line by line from each provider's `webhookHandler`. A JavaScript
exception reaching the handler's catch block is the branch the catch maps to
status 400; property access `x.y` on a parsed null value throws, so the
dispatch `switch` statements reject a top-level JSON null. -/

/-- webhookHandler of src/provider/console.ts (Console provider): logs and
returns 200 unconditionally. -/
def consoleWebhookHandler (_env : Env) (_req : HttpRequest) : HttpResponse :=
  { status := 200 }

/-- webhookHandler of the Stripe adapter (second module of
src/provider/console.ts): checks the secret, a body and the
stripe-signature header are present, parses the body, and returns 200 with
no signature verification performed ("simplified implementation" comment in
the source). -/
def stripeWebhookHandler (env : Env) (req : HttpRequest) : HttpResponse :=
  match envString env.stripeWebhookSecret with
  | none => { status := 500, body := some "Missing STRIPE_WEBHOOK_SECRET" }
  | some _ =>
    match req.body with
    | none => { status := 400, body := some "Invalid request" }
    | some body =>
      match headerString req.headers "stripe-signature" with
      | none => { status := 400, body := some "Missing stripe-signature header" }
      | some _ =>
        match jsonParse body with
        | none => { status := 400, body := some "Invalid webhook payload" }
        | some .null => { status := 400, body := some "Invalid webhook payload" }
        | some _ => { status := 200 }

/-- webhookHandler of the Polar adapter (src/unnamed/part_001): checks the
secret and a body, parses the body and returns 202; no signature
verification is performed ("For production, verify signature using Polar
SDK" comment in the source). -/
def polarWebhookHandler (env : Env) (req : HttpRequest) : HttpResponse :=
  match envString env.polarWebhookSecret with
  | none => { status := 500, body := some "Missing POLAR_WEBHOOK_SECRET" }
  | some _ =>
    match req.body with
    | none => { status := 400, body := some "No body" }
    | some body =>
      match jsonParse body with
      | none => { status := 400, body := some "Invalid webhook payload" }
      | some .null => { status := 400, body := some "Invalid webhook payload" }
      | some _ => { status := 202 }

/-- webhookHandler of src/provider/creem.ts: POST only, requires the
creem-signature header and the secret, recomputes the hex HMAC-SHA256 of the
body text and compares with ordinary string equality; mismatch yields 400,
then the parsed body yields 204. -/
def creemWebhookHandler (env : Env) (req : HttpRequest) : HttpResponse :=
  if req.method ≠ "POST" then { status := 405, body := some "Method not allowed" }
  else
    match headerString req.headers "creem-signature" with
    | none => { status := 400, body := some "Missing signature" }
    | some signature =>
      match envString env.creemWebhookSecret with
      | none => { status := 500, body := some "Missing CREEM_WEBHOOK_SECRET" }
      | some secret =>
        let bodyText := req.body.getD ""
        let computedSignature := hmacHex secret bodyText
        if computedSignature ≠ signature then
          { status := 400, body := some "Invalid signature" }
        else
          match jsonParse bodyText with
          | none => { status := 400, body := some "Invalid webhook payload" }
          | some .null => { status := 400, body := some "Invalid webhook payload" }
          | some _ => { status := 204 }

/-- webhookHandler of src/provider/dodopayments.ts: requires the secret and a
body, reads the webhook-id, webhook-signature and webhook-timestamp headers,
recomputes the hex HMAC-SHA256 of `id.timestamp.body` and compares with
ordinary string equality; mismatch yields 401, then the parsed body yields
204. -/
def dodoWebhookHandler (env : Env) (req : HttpRequest) : HttpResponse :=
  match envString env.dodoWebhookSecret with
  | none => { status := 500, body := some "Missing DODO_PAYMENTS_WEBHOOK_SECRET" }
  | some webhookSecret =>
    match req.body with
    | none => { status := 400, body := some "Invalid request" }
    | some body =>
      match headerString req.headers "webhook-id",
          headerString req.headers "webhook-signature",
          headerString req.headers "webhook-timestamp" with
      | some webhookId, some webhookSignature, some webhookTimestamp =>
        let payload := webhookId ++ "." ++ webhookTimestamp ++ "." ++ body
        let expectedSignature := hmacHex webhookSecret payload
        if webhookSignature ≠ expectedSignature then
          { status := 401, body := some "Invalid webhook signature" }
        else
          match jsonParse body with
          | none => { status := 400, body := some "Invalid webhook payload" }
          | some .null => { status := 400, body := some "Invalid webhook payload" }
          | some _ => { status := 204 }
      | _, _, _ => { status := 400, body := some "Missing webhook headers" }

/-- Dispatch guard of the LemonSqueezy handler: `payload.meta.event_name`
throws exactly when the payload is null or its meta member is undefined or
null. -/
def lemonDispatchOk (j : Json) : Bool :=
  match j with
  | .obj fs =>
    match objLookup fs "meta" with
    | some .null => false
    | some _ => true
    | none => false
  | _ => false

/-- webhookHandler of src/provider/lemonsqueezy.ts: requires the secret;
inside the try block it computes the hex HMAC-SHA256 of the body text,
wraps digest and x-signature header in UTF-8 buffers and compares them with
crypto.timingSafeEqual (which throws on differing byte lengths, caught as
400); a failed comparison yields 400, then the parsed body yields 204. -/
def lemonWebhookHandler (env : Env) (req : HttpRequest) : HttpResponse :=
  match envString env.lemonWebhookSecret with
  | none => { status := 500, body := some "Missing LEMONSQUEEZY_WEBHOOK_SECRET" }
  | some webhookSecret =>
    let text := req.body.getD ""
    let digest := hmacHex webhookSecret text
    match getHeader req.headers "x-signature" with
    | none => { status := 400, body := some "Invalid webhook payload" }
    | some signature =>
      if strUtf8Len digest ≠ strUtf8Len signature then
        { status := 400, body := some "Invalid webhook payload" }
      else if digest ≠ signature then
        { status := 400, body := some "Invalid signature" }
      else
        match jsonParse text with
        | none => { status := 400, body := some "Invalid webhook payload" }
        | some payload =>
          if lemonDispatchOk payload then { status := 204 }
          else { status := 400, body := some "Invalid webhook payload" }

/-! ## Tap saved-card helpers (src/provider/tap.ts) -/

/-- extractSavedCardFromWebhook result: the three saved-card identifiers, as
the JSON values found in the payload (the source casts them to string). -/
structure TapSavedCardResult where
  customerId : Json
  cardId : Json
  paymentAgreementId : Json

/-- extractSavedCardFromWebhook of src/provider/tap.ts: reads card, customer
and payment_agreement from the payload object and their id members through
optional chaining; returns null when `!card?.id || !customer?.id ||
!paymentAgreement?.id` (JavaScript truthiness), else the three ids. -/
def extractSavedCardFromWebhook (webhookData : List (String × Json)) :
    Option TapSavedCardResult :=
  let card := objLookup webhookData "card"
  let customer := objLookup webhookData "customer"
  let paymentAgreement := objLookup webhookData "payment_agreement"
  let cardId := jsOptField card "id"
  let customerId := jsOptField customer "id"
  let paymentAgreementId := jsOptField paymentAgreement "id"
  if !jsTruthyO cardId || !jsTruthyO customerId || !jsTruthyO paymentAgreementId then
    none
  else
    some { customerId := customerId.getD .null,
           cardId := cardId.getD .null,
           paymentAgreementId := paymentAgreementId.getD .null }

/-- The result shape of the external @xyz/webhook-verifier verify call as
tap.ts consumes it: validity flag, an error reason, and the verified event
data. -/
structure TapVerifyResult where
  isValid : Bool
  error : Option String := none
  data : Json := .null

/-- webhookHandler of src/provider/tap.ts, parametrized by the external
@xyz/webhook-verifier verify function (its package is not part of this
repository; the handler's own control flow is what this embeds): requires a
body; inside the try block getTapVerifier throws when TAP_WEBHOOK_SECRET is
missing, which the catch maps to 400; an invalid verification yields 401; on
CHARGE.CAPTURED the saved-card extraction runs on event.data (throwing, hence
400, when that member is null or undefined), and every verified event yields
200. -/
def tapWebhookHandler (verify : Json → List (String × String) → TapVerifyResult)
    (env : Env) (req : HttpRequest) : HttpResponse :=
  match req.body with
  | none => { status := 400, body := some "Invalid request" }
  | some body =>
    match envString env.tapWebhookSecret with
    | none => { status := 400, body := some "Invalid webhook payload" }
    | some _ =>
      match jsonParse body with
      | none => { status := 400, body := some "Invalid webhook payload" }
      | some payload =>
        let result := verify payload req.headers
        if !result.isValid then
          { status := 401,
            body := some ("Invalid signature: " ++ result.error.getD "undefined") }
        else
          match result.data with
          | .null => { status := 400, body := some "Invalid webhook payload" }
          | .obj fs =>
            match objLookup fs "event" with
            | some (.str e) =>
              if e = "CHARGE.CAPTURED" then
                match objLookup fs "data" with
                | none => { status := 400, body := some "Invalid webhook payload" }
                | some .null => { status := 400, body := some "Invalid webhook payload" }
                | some (.obj dfs) =>
                  let _ := extractSavedCardFromWebhook dfs
                  { status := 200 }
                | some _ => { status := 200 }
              else { status := 200 }
            | _ => { status := 200 }
          | _ => { status := 200 }

/-! ## Checkout-link creation

Each provider's createCheckoutLink is embedded as a function of the
environment, an explicit world giving the provider API's response, and the
request parameters; it returns the operation's outcome together with the
list of outbound network calls it performed, in order (the URLs fetched).
Thrown errors are an Except error: a missing environment variable throw (the
spec's ConfigurationError) or a non-success API response throw (the spec's
ProviderError). -/

/-- The errors the adapters throw, by the spec's taxonomy: missingEnv models
the `Missing env variable X` ConfigurationError throws, apiError the
non-success-response ProviderError throws. -/
inductive PayErr where
  | missingEnv (envVar : String)
  | apiError (msg : String)
  | unsupported (msg : String)
  | notImplemented (msg : String)
deriving DecidableEq

/-- The provider API's response to the one fetch a checkout call makes. -/
structure FetchWorld where
  ok : Bool := true
  url : Option String := none
  errorBody : String := ""

/-- The payment type of src/types.ts: "subscription" | "one-time". -/
inductive PayType where
  | subscription
  | oneTime
deriving DecidableEq

/-- CreateCheckoutLinkParams of src/types.ts (numeric fields as naturals). -/
structure CheckoutParams where
  type : PayType
  productId : String
  email : Option String := none
  name : Option String := none
  redirectUrl : Option String := none
  customerId : Option String := none
  organizationId : Option String := none
  userId : Option String := none
  trialPeriodDays : Option Nat := none
  seats : Option Nat := none

/-- JavaScript truthiness of an optional string parameter (`if (x)`). -/
def optStrTruthy (o : Option String) : Bool :=
  !(o.getD "" = "")

/-- JavaScript truthiness of an optional numeric parameter (`if (x)`). -/
def optNatTruthy (o : Option Nat) : Bool :=
  !(o.getD 0 = 0)

/-- Decimal digits of a natural, fuel-based. -/
def ntoaGo : Nat → Nat → List Char → List Char
  | 0, _, acc => acc
  | _, 0, acc => acc
  | fuel + 1, n, acc => ntoaGo fuel (n / 10) (Char.ofNat (48 + n % 10) :: acc)

/-- JavaScript String(n) for a natural number. -/
def ntoa (n : Nat) : String :=
  if n = 0 then "0" else String.mk (ntoaGo (n + 1) n [])

/-- The URLSearchParams body the Stripe adapter builds, as its ordered entry
list (console.ts second module, createCheckoutLink). -/
def stripeCheckoutParamsBody (p : CheckoutParams) : List (String × String) :=
  [("mode", if p.type = PayType.subscription then "subscription" else "payment"),
   ("success_url", p.redirectUrl.getD ""),
   ("line_items[0][price]", p.productId),
   ("line_items[0][quantity]", ntoa (p.seats.getD 1))]
  ++ (if optStrTruthy p.customerId then [("customer", p.customerId.getD "")]
      else if optStrTruthy p.email then [("customer_email", p.email.getD "")]
      else [])
  ++ (if optStrTruthy p.organizationId then
        [("metadata[organization_id]", p.organizationId.getD "")] else [])
  ++ (if optStrTruthy p.userId then [("metadata[user_id]", p.userId.getD "")] else [])
  ++ (if p.type = PayType.subscription && optNatTruthy p.trialPeriodDays then
        [("subscription_data[trial_period_days]", ntoa (p.trialPeriodDays.getD 0))]
      else [])

/-- createCheckoutLink of the Stripe adapter: secret key first, then one POST
to the checkout-sessions endpoint. -/
def stripeCreateCheckoutLink (env : Env) (w : FetchWorld) (_p : CheckoutParams) :
    Except PayErr (Option String) × List String :=
  match envString env.stripeSecretKey with
  | none => (.error (.missingEnv "STRIPE_SECRET_KEY"), [])
  | some _ =>
    let calls := ["https://api.stripe.com/v1/checkout/sessions"]
    if !w.ok then (.error (.apiError ("Stripe API error: " ++ w.errorBody)), calls)
    else (.ok w.url, calls)

/-- createCheckoutLink of src/provider/lemonsqueezy.ts: API key then store id
are required, then one POST to the checkouts endpoint. -/
def lemonCreateCheckoutLink (env : Env) (w : FetchWorld) (_p : CheckoutParams) :
    Except PayErr (Option String) × List String :=
  match envString env.lemonApiKey with
  | none => (.error (.missingEnv "LEMONSQUEEZY_API_KEY"), [])
  | some _ =>
    match envString env.lemonStoreId with
    | none => (.error (.missingEnv "LEMONSQUEEZY_STORE_ID"), [])
    | some _ =>
      let calls := ["https://api.lemonsqueezy.com/v1/checkouts"]
      if !w.ok then
        (.error (.apiError ("LemonSqueezy API error: " ++ w.errorBody)), calls)
      else (.ok w.url, calls)

/-- createCheckoutLink of the Polar adapter (src/unnamed/part_001): access
token required, then one POST to the checkouts endpoint. -/
def polarCreateCheckoutLink (env : Env) (w : FetchWorld) (_p : CheckoutParams) :
    Except PayErr (Option String) × List String :=
  match envString env.polarAccessToken with
  | none => (.error (.missingEnv "POLAR_ACCESS_TOKEN"), [])
  | some _ =>
    let calls := ["https://api.polar.sh/v1/checkouts"]
    if !w.ok then (.error (.apiError ("Polar API error: " ++ w.errorBody)), calls)
    else (.ok w.url, calls)

/-- createCheckoutLink of src/provider/creem.ts: creemFetch resolves the API
key before fetching, so a missing key throws before the one POST. -/
def creemCreateCheckoutLink (env : Env) (w : FetchWorld) (_p : CheckoutParams) :
    Except PayErr (Option String) × List String :=
  match envString env.creemApiKey with
  | none => (.error (.missingEnv "CREEM_API_KEY"), [])
  | some _ =>
    let baseUrl :=
      if env.nodeEnvProduction then "https://api.creem.io/v1"
      else "https://test-api.creem.io/v1"
    let calls := [baseUrl ++ "/checkouts"]
    if !w.ok then (.error (.apiError ("Creem API error: " ++ w.errorBody)), calls)
    else (.ok w.url, calls)

/-- createCheckoutLink of src/provider/dodopayments.ts: API key required,
then one POST to the checkout-sessions endpoint. -/
def dodoCreateCheckoutLink (env : Env) (w : FetchWorld) (_p : CheckoutParams) :
    Except PayErr (Option String) × List String :=
  match envString env.dodoApiKey with
  | none => (.error (.missingEnv "DODO_PAYMENTS_API_KEY"), [])
  | some _ =>
    let baseUrl :=
      if env.nodeEnvProduction then "https://api.dodopayments.com/v1"
      else "https://api.dodopayments.com/test/v1"
    let calls := [baseUrl ++ "/checkout-sessions"]
    if !w.ok then
      (.error (.apiError ("DodoPayments API error: " ++ w.errorBody)), calls)
    else (.ok w.url, calls)

/-- createCheckoutLink of src/provider/tap.ts: secret key required, then one
POST to the charges endpoint. -/
def tapCreateCheckoutLink (env : Env) (w : FetchWorld) (_p : CheckoutParams) :
    Except PayErr (Option String) × List String :=
  match envString env.tapSecretKey with
  | none => (.error (.missingEnv "TAP_SECRET_KEY"), [])
  | some _ =>
    let calls := ["https://api.tap.company/v2/charges"]
    if !w.ok then (.error (.apiError ("Tap API error: " ++ w.errorBody)), calls)
    else (.ok w.url, calls)

/-- createCheckoutLink of the Console provider (src/provider/console.ts first
module): logs and returns a mock URL, with no network call. -/
def consoleCreateCheckoutLink (_env : Env) (_w : FetchWorld) (_p : CheckoutParams) :
    Except PayErr (Option String) × List String :=
  (.ok (some "https://example.com/checkout/mock-session-id"), [])

/-! ## Outbound checkout request bodies

The JSON body each adapter sends, as structures mirroring the object
literals in the sources; an Option field models a property that is null
(when the source writes null) or dropped (when the source writes
undefined, which JSON.stringify omits). -/

/-- JavaScript parseInt(s, 10): skip whitespace, optional sign, longest
digit prefix; none models NaN. -/
def parseInt10 (s : String) : Option Int :=
  let cs := skipWs s.data
  let signed : Bool × List Char :=
    match cs with
    | '-' :: r => (true, r)
    | '+' :: r => (false, r)
    | _ => (false, cs)
  match takeDigits signed.2 with
  | ([], _) => none
  | (ds, _) =>
    let n : Int := digitsVal ds
    some (if signed.1 then -n else n)

/-- JavaScript s.split(" "), empty parts preserved. -/
def splitSpacesGo : List Char → List Char → List String
  | [], acc => [String.mk acc.reverse]
  | c :: rest, acc =>
    if c = ' ' then String.mk acc.reverse :: splitSpacesGo rest []
    else splitSpacesGo rest (c :: acc)

/-- JavaScript s.split(" ") on a string. -/
def jsSplitSpace (s : String) : List String :=
  splitSpacesGo s.data []

/-- JavaScript parts.join(" "). -/
def joinSpace : List String → String
  | [] => ""
  | [x] => x
  | x :: rest => x ++ " " ++ joinSpace rest

/-- The checkouts body of src/provider/creem.ts createCheckoutLink. -/
structure CreemCheckoutBody where
  product_id : String
  units : Nat
  success_url : Option String
  metadata_organization_id : Option String
  metadata_user_id : Option String
  customer_email : Option String

/-- Creem request body: units defaults seats to 1; organization_id and
user_id fall back to null under `|| null`. -/
def creemCheckoutBody (p : CheckoutParams) : CreemCheckoutBody :=
  { product_id := p.productId,
    units := p.seats.getD 1,
    success_url := p.redirectUrl,
    metadata_organization_id := if optStrTruthy p.organizationId then p.organizationId else none,
    metadata_user_id := if optStrTruthy p.userId then p.userId else none,
    customer_email := p.email }

/-- The checkout-sessions body of src/provider/dodopayments.ts
createCheckoutLink; product_cart pairs are (product_id, quantity). -/
structure DodoCheckoutBody where
  product_cart : List (String × Nat)
  return_url : String
  customer_id : Option String
  customer_email : Option String
  customer_name : Option String
  metadata : List (String × String)
  trial_period_days : Option Nat

/-- DodoPayments request body: quantity defaults seats to 1; the customer is
either the existing id or the email/name pair; subscription_data is present
only for a truthy trial period. -/
def dodoCheckoutBody (p : CheckoutParams) : DodoCheckoutBody :=
  { product_cart := [(p.productId, p.seats.getD 1)],
    return_url := p.redirectUrl.getD "",
    customer_id := if optStrTruthy p.customerId then p.customerId else none,
    customer_email := if optStrTruthy p.customerId then none else some (p.email.getD ""),
    customer_name := if optStrTruthy p.customerId then none else some (p.name.getD ""),
    metadata :=
      (if optStrTruthy p.organizationId then
        [("organization_id", p.organizationId.getD "")] else [])
      ++ (if optStrTruthy p.userId then [("user_id", p.userId.getD "")] else []),
    trial_period_days := if optNatTruthy p.trialPeriodDays then p.trialPeriodDays else none }

/-- The checkouts body of src/provider/lemonsqueezy.ts createCheckoutLink;
variant_quantities pairs are (variant_id as parseInt parses it, quantity). -/
structure LemonCheckoutBody where
  redirect_url : Option String
  enabled_variants : List (Option Int)
  checkout_email : Option String
  checkout_name : Option String
  variant_quantities : List (Option Int × Nat)
  custom : List (String × String)
  store_id : String
  variant_id : String

/-- LemonSqueezy request body: quantity defaults seats to 1. -/
def lemonCheckoutBody (storeId : String) (p : CheckoutParams) : LemonCheckoutBody :=
  { redirect_url := p.redirectUrl,
    enabled_variants := [parseInt10 p.productId],
    checkout_email := p.email,
    checkout_name := p.name,
    variant_quantities := [(parseInt10 p.productId, p.seats.getD 1)],
    custom :=
      (if optStrTruthy p.organizationId then
        [("organization_id", p.organizationId.getD "")] else [])
      ++ (if optStrTruthy p.userId then [("user_id", p.userId.getD "")] else []),
    store_id := storeId,
    variant_id := p.productId }

/-- The checkouts body of the Polar adapter (src/unnamed/part_001)
createCheckoutLink; a none customer_id models the dropped undefined property
of `customerId || undefined`. -/
structure PolarCheckoutBody where
  products : List String
  success_url : String
  metadata : List (String × String)
  customer_id : Option String

/-- Polar request body: products, success_url, metadata, customer_id — the
seats parameter is not read at all. -/
def polarCheckoutBody (p : CheckoutParams) : PolarCheckoutBody :=
  { products := [p.productId],
    success_url := p.redirectUrl.getD "",
    metadata :=
      (if optStrTruthy p.organizationId then
        [("organization_id", p.organizationId.getD "")] else [])
      ++ (if optStrTruthy p.userId then [("user_id", p.userId.getD "")] else []),
    customer_id := if optStrTruthy p.customerId then p.customerId else none }

/-- The JSON keys the serialized Polar body carries at top level. -/
def polarBodyKeys (b : PolarCheckoutBody) : List String :=
  ["products", "success_url", "metadata"]
  ++ (match b.customer_id with
      | some _ => ["customer_id"]
      | none => [])

/-- Every JSON key of the serialized Polar body, the flat metadata keys
included. -/
def polarAllKeys (b : PolarCheckoutBody) : List String :=
  polarBodyKeys b ++ b.metadata.map Prod.fst

/-- The charges body of src/provider/tap.ts createCheckoutLink; `now` stands
for Date.now() in the order reference. -/
structure TapCheckoutBody where
  amount : Nat
  currency : String
  save_card : Bool
  customer_email : Option String
  customer_first_name : String
  customer_last_name : String
  source_id : String
  redirect_url : String
  post_url : String
  metadata : List (String × String)
  reference_transaction : String
  reference_order : String

/-- Tap request body: amount is the literal 0 and currency the literal "USD"
("Set your amount here based on pricing" comment in the source); save_card
is enabled for subscriptions; quantity rides in the metadata as a string. -/
def tapCheckoutBody (now : Nat) (p : CheckoutParams) : TapCheckoutBody :=
  { amount := 0,
    currency := "USD",
    save_card := p.type = PayType.subscription,
    customer_email := p.email,
    customer_first_name :=
      (match p.name with
       | none => ""
       | some n => (jsSplitSpace n).headD ""),
    customer_last_name :=
      (match p.name with
       | none => ""
       | some n => joinSpace ((jsSplitSpace n).drop 1)),
    source_id := "src_all",
    redirect_url := p.redirectUrl.getD "",
    post_url := p.redirectUrl.getD "",
    metadata :=
      (if optStrTruthy p.organizationId then
        [("organization_id", p.organizationId.getD "")] else [])
      ++ (if optStrTruthy p.userId then [("user_id", p.userId.getD "")] else [])
      ++ [("product_id", p.productId),
          ("quantity", ntoa (p.seats.getD 1)),
          ("type", if p.type = PayType.subscription then "subscription" else "one-time")],
    reference_transaction := p.productId,
    reference_order :=
      (if p.type = PayType.subscription then "subscription" else "one-time")
      ++ "_" ++ ntoa now }

/-! ## Tap recurring charge (tokenize then charge) -/

/-- ChargeCardParams of src/provider/tap.ts (amount as a natural). -/
structure ChargeCardParams where
  customerId : String
  cardId : String
  paymentAgreementId : String
  amount : Nat
  currency : String
  description : Option String := none
  metadata : List (String × String) := []

/-- An outbound Tap API call chargeCard can make, with the request data it
carries. -/
inductive TapNetCall where
  | tokens (cardId customerId : String)
  | charges (amount : Nat) (currency : String) (sourceId customerId paymentAgreementId description : String)
deriving DecidableEq

/-- The Tap API's responses to the two calls chargeCard can make. -/
structure TapChargeWorld where
  tokenOk : Bool := true
  tokenId : String := ""
  tokenErrorBody : String := ""
  chargeOk : Bool := true
  chargeId : String := ""
  chargeStatus : String := ""
  chargeErrorBody : String := ""

/-- The chargeCard result: charge id and provider-defined status. -/
structure TapChargeResult where
  chargeId : String
  status : String
deriving DecidableEq

/-- chargeCard of src/provider/tap.ts: secret key first; one POST to /tokens
for the saved card, whose failure throws before anything else happens; then
one merchant-initiated POST to /charges with the fresh token. The second
component lists the calls made, in order. -/
def chargeCard (env : Env) (w : TapChargeWorld) (p : ChargeCardParams) :
    Except PayErr TapChargeResult × List TapNetCall :=
  match envString env.tapSecretKey with
  | none => (.error (.missingEnv "TAP_SECRET_KEY"), [])
  | some _ =>
    let tokenCall := TapNetCall.tokens p.cardId p.customerId
    if !w.tokenOk then
      (.error (.apiError ("Tap Token API error: " ++ w.tokenErrorBody)), [tokenCall])
    else
      let chargeCall := TapNetCall.charges p.amount p.currency w.tokenId
        p.customerId p.paymentAgreementId (p.description.getD "Recurring payment")
      if !w.chargeOk then
        (.error (.apiError ("Tap Charge API error: " ++ w.chargeErrorBody)),
         [tokenCall, chargeCall])
      else (.ok ⟨w.chargeId, w.chargeStatus⟩, [tokenCall, chargeCall])

/-! ## Digest shape lemmas

A hex SHA-256 digest is 64 ASCII characters, hence 64 UTF-8 bytes; the
LemonSqueezy handler's timingSafeEqual path depends on this. -/

/-- One compression step always yields the eight hash words. -/
theorem shaCompress_length (hs block : List Nat) : (shaCompress hs block).length = 8 :=
  rfl

/-- Folding compression steps over any block list keeps eight words. -/
theorem foldl_shaCompress_length (bs : List (List Nat)) :
    ∀ hs : List Nat, hs.length = 8 → (bs.foldl shaCompress hs).length = 8 := by
  induction bs with
  | nil => intro hs h; simpa using h
  | cons b bs ih =>
    intro hs _
    simpa using ih (shaCompress hs b) (shaCompress_length hs b)

/-- Flat-mapping a four-byte renderer multiplies the length by four. -/
theorem flatMap_four_length (f : Nat → List Nat) (hf : ∀ w, (f w).length = 4) :
    ∀ ws : List Nat, (ws.flatMap f).length = 4 * ws.length := by
  intro ws
  induction ws with
  | nil => simp
  | cons w ws ih =>
    simp only [List.flatMap_cons, List.length_append, List.length_cons, hf, ih]
    omega

/-- A SHA-256 digest is 32 bytes. -/
theorem sha256_length (msg : List Nat) : (sha256 msg).length = 32 := by
  have h8 : ((chunks64 (shaPad msg)).foldl shaCompress shaH0).length = 8 :=
    foldl_shaCompress_length _ shaH0 rfl
  unfold sha256
  rw [flatMap_four_length
    (fun w => [(w >>> 24) % 256, (w >>> 16) % 256, (w >>> 8) % 256, w % 256])
    (fun _ => rfl), h8]

/-- Every byte a SHA-256 digest emits is below 256. -/
theorem sha256_bytes_lt (msg : List Nat) : ∀ b ∈ sha256 msg, b < 256 := by
  intro b hb
  unfold sha256 at hb
  rw [List.mem_flatMap] at hb
  obtain ⟨w, _, hw⟩ := hb
  simp only [List.mem_cons, List.not_mem_nil, or_false] at hw
  rcases hw with rfl | rfl | rfl | rfl <;> exact Nat.mod_lt _ (by norm_num)

/-- An HMAC-SHA256 digest is 32 bytes. -/
theorem hmacSha256_length (key msg : List Nat) : (hmacSha256 key msg).length = 32 := by
  unfold hmacSha256
  exact sha256_length _

/-- Every byte an HMAC-SHA256 digest emits is below 256. -/
theorem hmacSha256_bytes_lt (key msg : List Nat) :
    ∀ b ∈ hmacSha256 key msg, b < 256 := by
  unfold hmacSha256
  exact sha256_bytes_lt _

/-- A hex digit character is a single UTF-8 byte. -/
theorem charUtf8_hexDigit_length : ∀ v, v < 16 → (charUtf8 (hexDigit v)).length = 1 := by
  decide

/-- Hex rendering of in-range bytes takes one UTF-8 byte per character, so
two per input byte. -/
theorem strUtf8Len_bytesToHex (bs : List Nat) (h : ∀ b ∈ bs, b < 256) :
    strUtf8Len (bytesToHex bs) = 2 * bs.length := by
  induction bs with
  | nil => rfl
  | cons b bs ih =>
    have hb : b < 256 := h b (List.mem_cons_self b bs)
    have hdiv : b / 16 < 16 := Nat.div_lt_of_lt_mul (by omega)
    have hmod : b % 16 < 16 := Nat.mod_lt _ (by norm_num)
    have ihl := ih (fun x hx => h x (List.mem_cons_of_mem b hx))
    simp only [strUtf8Len, strBytes, bytesToHex, List.flatMap_cons, List.append_assoc] at ihl ⊢
    simp only [List.flatMap_append, List.length_append, List.flatMap_cons,
      List.flatMap_nil, List.append_nil, List.length_cons] at ihl ⊢
    rw [charUtf8_hexDigit_length _ hdiv, charUtf8_hexDigit_length _ hmod]
    omega

/-- A hex HMAC-SHA256 digest string is 64 UTF-8 bytes long. -/
theorem hmacHex_utf8Len (key msg : String) : strUtf8Len (hmacHex key msg) = 64 := by
  unfold hmacHex
  rw [strUtf8Len_bytesToHex _ (hmacSha256_bytes_lt _ _), hmacSha256_length]

/-- A hex HMAC-SHA256 digest string is never empty. -/
theorem hmacHex_ne_empty (key msg : String) : hmacHex key msg ≠ "" := by
  intro h
  have h64 := hmacHex_utf8Len key msg
  rw [h] at h64
  exact absurd h64 (by decide)

/-- A header carrying a hex digest is never dropped by the falsiness test. -/
theorem envString_hmacHex (k m : String) :
    envString (some (hmacHex k m)) = some (hmacHex k m) := by
  simp [envString, hmacHex_ne_empty k m]

/-- The condition under which the Tap handler's dispatch switch runs without
throwing on the verified event data: the data is not null, and on a
CHARGE.CAPTURED event its data member is present and not null. -/
def tapDispatchOk : Json → Bool
  | .null => false
  | .obj fs =>
    match objLookup fs "event" with
    | some (.str e) =>
      if e = "CHARGE.CAPTURED" then
        match objLookup fs "data" with
        | none => false
        | some .null => false
        | some _ => true
      else true
    | some _ => true
    | none => true
  | _ => true

/-! ## The claims -/

/-- C1 counterexample: the Stripe webhook handler accepts a body that
differs from the body the supplied signature was computed over, returning
200 where the claim demands 401 or 400. -/
theorem stripe_webhook_accepts_tampered_body :
    ("\x7b\"type\":\"a\"\x7d" : String) ≠ "\x7b\"type\":\"b\"\x7d"
    ∧ (stripeWebhookHandler { stripeWebhookSecret := some "whsec" }
        { method := "POST",
          headers := [("stripe-signature", hmacHex "whsec" "\x7b\"type\":\"a\"\x7d")],
          body := some "\x7b\"type\":\"b\"\x7d" }).status = 200 := by
  constructor
  · decide
  · decide

/-- C1 (amended): LemonSqueezy, Creem and DodoPayments reject a body whose
recomputed HMAC differs from the one the supplied signature was computed
over (400, 400 and 401 respectively) and accept the matching body/signature
pair with their table status (204, 204, 204); Tap returns 401 exactly when
the external verifier reports invalid and 200 when it reports valid;
Console always returns 200; Stripe and Polar do not verify signatures and
return their success statuses 200 and 202 for any parseable body while the
required secret and headers are present. -/
theorem webhook_tamper_and_roundtrip :
    (∀ env req, (consoleWebhookHandler env req).status = 200)
    ∧ (∀ env req secret body j,
        envString env.lemonWebhookSecret = some secret →
        req.body = some body →
        getHeader req.headers "x-signature" = some (hmacHex secret body) →
        jsonParse body = some j → lemonDispatchOk j = true →
        (lemonWebhookHandler env req).status = 204)
    ∧ (∀ env req secret origBody body,
        envString env.lemonWebhookSecret = some secret →
        req.body = some body →
        getHeader req.headers "x-signature" = some (hmacHex secret origBody) →
        hmacHex secret body ≠ hmacHex secret origBody →
        (lemonWebhookHandler env req).status = 400)
    ∧ (∀ env req secret body j,
        req.method = "POST" →
        envString env.creemWebhookSecret = some secret →
        req.body = some body →
        headerString req.headers "creem-signature" = some (hmacHex secret body) →
        jsonParse body = some j → j.isNull = false →
        (creemWebhookHandler env req).status = 204)
    ∧ (∀ env req secret origBody body,
        req.method = "POST" →
        envString env.creemWebhookSecret = some secret →
        req.body = some body →
        headerString req.headers "creem-signature" = some (hmacHex secret origBody) →
        hmacHex secret body ≠ hmacHex secret origBody →
        (creemWebhookHandler env req).status = 400)
    ∧ (∀ env req secret body wid ts j,
        envString env.dodoWebhookSecret = some secret →
        req.body = some body →
        headerString req.headers "webhook-id" = some wid →
        headerString req.headers "webhook-timestamp" = some ts →
        headerString req.headers "webhook-signature"
          = some (hmacHex secret (wid ++ "." ++ ts ++ "." ++ body)) →
        jsonParse body = some j → j.isNull = false →
        (dodoWebhookHandler env req).status = 204)
    ∧ (∀ env req secret origBody body wid ts,
        envString env.dodoWebhookSecret = some secret →
        req.body = some body →
        headerString req.headers "webhook-id" = some wid →
        headerString req.headers "webhook-timestamp" = some ts →
        headerString req.headers "webhook-signature"
          = some (hmacHex secret (wid ++ "." ++ ts ++ "." ++ origBody)) →
        hmacHex secret (wid ++ "." ++ ts ++ "." ++ body)
          ≠ hmacHex secret (wid ++ "." ++ ts ++ "." ++ origBody) →
        (dodoWebhookHandler env req).status = 401)
    ∧ (∀ verify env req secret body payload,
        envString env.tapWebhookSecret = some secret →
        req.body = some body →
        jsonParse body = some payload →
        (verify payload req.headers).isValid = false →
        (tapWebhookHandler verify env req).status = 401)
    ∧ (∀ verify env req secret body payload,
        envString env.tapWebhookSecret = some secret →
        req.body = some body →
        jsonParse body = some payload →
        (verify payload req.headers).isValid = true →
        tapDispatchOk (verify payload req.headers).data = true →
        (tapWebhookHandler verify env req).status = 200)
    ∧ (∀ env req secret sig body j,
        envString env.stripeWebhookSecret = some secret →
        req.body = some body →
        headerString req.headers "stripe-signature" = some sig →
        jsonParse body = some j → j.isNull = false →
        (stripeWebhookHandler env req).status = 200)
    ∧ (∀ env req secret body j,
        envString env.polarWebhookSecret = some secret →
        req.body = some body →
        jsonParse body = some j → j.isNull = false →
        (polarWebhookHandler env req).status = 202) := by
  refine ⟨?_, ?_, ?_, ?_, ?_, ?_, ?_, ?_, ?_, ?_, ?_⟩
  · intro env req
    rfl
  · intro env req secret body j h1 h2 h3 h4 h5
    cases j <;> simp_all [lemonWebhookHandler, lemonDispatchOk]
  · intro env req secret origBody body h1 h2 h3 h4
    simp only [lemonWebhookHandler, h1, h2, h3, Option.getD_some]
    rw [hmacHex_utf8Len, hmacHex_utf8Len]
    simp [h4]
  · intro env req secret body j hm h1 h2 h3 h4 h5
    cases j <;> simp_all [creemWebhookHandler, Json.isNull]
  · intro env req secret origBody body hm h1 h2 h3 h4
    simp_all [creemWebhookHandler]
  · intro env req secret body wid ts j h1 h2 hw hts hsig h4 h5
    cases j <;> simp_all [dodoWebhookHandler, Json.isNull]
  · intro env req secret origBody body wid ts h1 h2 hw hts hsig h4
    have h4s : hmacHex secret (wid ++ "." ++ ts ++ "." ++ origBody)
        ≠ hmacHex secret (wid ++ "." ++ ts ++ "." ++ body) := fun he => h4 he.symm
    simp_all [dodoWebhookHandler]
  · intro verify env req secret body payload h1 h2 h3 h4
    simp_all [tapWebhookHandler]
  · intro verify env req secret body payload h1 h2 h3 h4 h5
    simp only [tapWebhookHandler, h1, h2, h3, h4, Bool.not_true, Bool.false_eq_true,
      if_false]
    revert h5
    cases hdata : (verify payload req.headers).data <;> simp [tapDispatchOk]
    case obj fs =>
      cases hev : objLookup fs "event" with
      | none => simp
      | some v =>
        cases v <;> simp
        case str e =>
          by_cases he : e = "CHARGE.CAPTURED"
          · simp only [he, if_true]
            cases hd : objLookup fs "data" with
            | none => simp
            | some d => cases d <;> simp
          · simp [he]
  · intro env req secret sig body j h1 h2 h3 h4 h5
    cases j <;> simp_all [stripeWebhookHandler, Json.isNull]
  · intro env req secret body j h1 h2 h3 h4
    cases j <;> simp_all [polarWebhookHandler, Json.isNull]

/-- C1 witness: the amended round-trip theorem applied at concrete requests
for every provider. -/
theorem webhook_tamper_and_roundtrip_witness :
    (consoleWebhookHandler {} {}).status = 200
    ∧ (lemonWebhookHandler { lemonWebhookSecret := some "k" }
        { headers := [("x-signature", hmacHex "k" "\x7b\"meta\":\x7b\x7d\x7d")],
          body := some "\x7b\"meta\":\x7b\x7d\x7d" }).status = 204
    ∧ (lemonWebhookHandler { lemonWebhookSecret := some "k" }
        { headers := [("x-signature", hmacHex "k" "\x7b\x7d")],
          body := some "\x7b\"meta\":\x7b\x7d\x7d" }).status = 400
    ∧ (creemWebhookHandler { creemWebhookSecret := some "k" }
        { headers := [("creem-signature", hmacHex "k" "\x7b\x7d")],
          body := some "\x7b\x7d" }).status = 204
    ∧ (creemWebhookHandler { creemWebhookSecret := some "k" }
        { headers := [("creem-signature", hmacHex "k" "\x7b\x7d")],
          body := some "1" }).status = 400
    ∧ (dodoWebhookHandler { dodoWebhookSecret := some "k" }
        { headers := [("webhook-id", "i"), ("webhook-timestamp", "2"),
            ("webhook-signature", hmacHex "k" ("i" ++ "." ++ "2" ++ "." ++ "\x7b\x7d"))],
          body := some "\x7b\x7d" }).status = 204
    ∧ (dodoWebhookHandler { dodoWebhookSecret := some "k" }
        { headers := [("webhook-id", "i"), ("webhook-timestamp", "2"),
            ("webhook-signature", hmacHex "k" ("i" ++ "." ++ "2" ++ "." ++ "\x7b\x7d"))],
          body := some "2" }).status = 401
    ∧ (tapWebhookHandler (fun _ _ => { isValid := false })
        { tapWebhookSecret := some "k" } { body := some "\x7b\x7d" }).status = 401
    ∧ (tapWebhookHandler (fun _ _ => { isValid := true, data := .obj [] })
        { tapWebhookSecret := some "k" } { body := some "\x7b\x7d" }).status = 200
    ∧ (stripeWebhookHandler { stripeWebhookSecret := some "k" }
        { headers := [("stripe-signature", "sig")],
          body := some "\x7b\x7d" }).status = 200
    ∧ (polarWebhookHandler { polarWebhookSecret := some "k" }
        { body := some "\x7b\x7d" }).status = 202 := by
  obtain ⟨hc, hl1, hl2, hcr1, hcr2, hd1, hd2, ht1, ht2, hs, hp⟩ :=
    webhook_tamper_and_roundtrip
  refine ⟨hc _ _, ?_, ?_, ?_, ?_, ?_, ?_, ?_, ?_, ?_, ?_⟩
  · exact hl1 _ _ "k" _ (.obj [("meta", .obj [])]) rfl rfl rfl rfl rfl
  · exact hl2 _ _ "k" "\x7b\x7d" "\x7b\"meta\":\x7b\x7d\x7d" rfl rfl rfl (by decide)
  · exact hcr1 _ _ "k" _ (.obj []) rfl rfl rfl
      (by simp [headerString, getHeader, envString_hmacHex]) rfl rfl
  · exact hcr2 _ _ "k" "\x7b\x7d" "1" rfl rfl rfl
      (by simp [headerString, getHeader, envString_hmacHex]) (by decide)
  · exact hd1 _ _ "k" _ "i" "2" (.obj []) rfl rfl
      (by simp [headerString, getHeader, envString])
      (by simp [headerString, getHeader, envString])
      (by simp [headerString, getHeader, envString_hmacHex]) rfl rfl
  · exact hd2 _ _ "k" "\x7b\x7d" "2" "i" "2" rfl rfl
      (by simp [headerString, getHeader, envString])
      (by simp [headerString, getHeader, envString])
      (by simp [headerString, getHeader, envString_hmacHex]) (by decide)
  · exact ht1 _ _ _ "k" _ (.obj []) rfl rfl rfl rfl
  · exact ht2 _ _ _ "k" _ (.obj []) rfl rfl rfl rfl rfl
  · exact hs _ _ "k" "sig" _ (.obj []) rfl rfl rfl rfl rfl
  · exact hp _ _ "k" _ (.obj []) rfl rfl rfl rfl

/-- C2: with every other verification step satisfied, the Creem and
DodoPayments handlers accept or reject on nothing but the ordinary string
equality `computedSignature !== signature` between the supplied signature
header and the recomputed hex digest — the comparison the spec calls a
defect; only LemonSqueezy routes the comparison through
crypto.timingSafeEqual. -/
theorem creem_dodo_signature_comparison_is_plain_equality :
    (∀ env req secret signature body j,
        req.method = "POST" →
        headerString req.headers "creem-signature" = some signature →
        envString env.creemWebhookSecret = some secret →
        req.body = some body →
        jsonParse body = some j → j.isNull = false →
        (signature = hmacHex secret body →
          (creemWebhookHandler env req).status = 204)
        ∧ (signature ≠ hmacHex secret body →
          (creemWebhookHandler env req).status = 400))
    ∧ (∀ env req secret signature body wid ts j,
        envString env.dodoWebhookSecret = some secret →
        req.body = some body →
        headerString req.headers "webhook-id" = some wid →
        headerString req.headers "webhook-timestamp" = some ts →
        headerString req.headers "webhook-signature" = some signature →
        jsonParse body = some j → j.isNull = false →
        (signature = hmacHex secret (wid ++ "." ++ ts ++ "." ++ body) →
          (dodoWebhookHandler env req).status = 204)
        ∧ (signature ≠ hmacHex secret (wid ++ "." ++ ts ++ "." ++ body) →
          (dodoWebhookHandler env req).status = 401)) := by
  constructor
  · intro env req secret signature body j hm hsig hk hb hj hn
    constructor
    · intro he
      subst he
      cases j <;> simp_all [creemWebhookHandler, Json.isNull]
    · intro he
      have hes : hmacHex secret body ≠ signature := fun h => he h.symm
      simp_all [creemWebhookHandler]
  · intro env req secret signature body wid ts j hk hb hw hts hsig hj hn
    constructor
    · intro he
      subst he
      cases j <;> simp_all [dodoWebhookHandler, Json.isNull]
    · intro he
      simp_all [dodoWebhookHandler]

/-- C2 witness: the plain-equality acceptance theorem applied at concrete
Creem and DodoPayments requests, on both sides of the comparison. -/
theorem creem_dodo_signature_comparison_witness :
    (creemWebhookHandler { creemWebhookSecret := some "s" }
      { headers := [("creem-signature", hmacHex "s" "\x7b\x7d")],
        body := some "\x7b\x7d" }).status = 204
    ∧ (creemWebhookHandler { creemWebhookSecret := some "s" }
      { headers := [("creem-signature", "x")],
        body := some "\x7b\x7d" }).status = 400
    ∧ (dodoWebhookHandler { dodoWebhookSecret := some "s" }
      { headers := [("webhook-id", "i"), ("webhook-timestamp", "2"),
          ("webhook-signature", hmacHex "s" ("i" ++ "." ++ "2" ++ "." ++ "\x7b\x7d"))],
        body := some "\x7b\x7d" }).status = 204
    ∧ (dodoWebhookHandler { dodoWebhookSecret := some "s" }
      { headers := [("webhook-id", "i"), ("webhook-timestamp", "2"),
          ("webhook-signature", "x")],
        body := some "\x7b\x7d" }).status = 401 := by
  obtain ⟨hcreem, hdodo⟩ := creem_dodo_signature_comparison_is_plain_equality
  have hxne : ∀ m : String, ("x" : String) ≠ hmacHex "s" m := by
    intro m he
    have h64 := hmacHex_utf8Len "s" m
    rw [← he] at h64
    exact absurd h64 (by decide)
  refine ⟨?_, ?_, ?_, ?_⟩
  · exact (hcreem { creemWebhookSecret := some "s" }
      { headers := [("creem-signature", hmacHex "s" "\x7b\x7d")], body := some "\x7b\x7d" }
      "s" _ _ (.obj []) rfl
      (by simp [headerString, getHeader, envString_hmacHex]) rfl rfl rfl rfl).1 rfl
  · exact (hcreem { creemWebhookSecret := some "s" }
      { headers := [("creem-signature", "x")], body := some "\x7b\x7d" }
      "s" "x" _ (.obj []) rfl
      (by simp [headerString, getHeader, envString]) rfl rfl rfl rfl).2 (hxne _)
  · exact (hdodo { dodoWebhookSecret := some "s" }
      { headers := [("webhook-id", "i"), ("webhook-timestamp", "2"),
          ("webhook-signature", hmacHex "s" ("i" ++ "." ++ "2" ++ "." ++ "\x7b\x7d"))],
        body := some "\x7b\x7d" }
      "s" _ _ "i" "2" (.obj []) rfl rfl
      (by simp [headerString, getHeader, envString])
      (by simp [headerString, getHeader, envString])
      (by simp [headerString, getHeader, envString_hmacHex]) rfl rfl).1 rfl
  · exact (hdodo { dodoWebhookSecret := some "s" }
      { headers := [("webhook-id", "i"), ("webhook-timestamp", "2"),
          ("webhook-signature", "x")],
        body := some "\x7b\x7d" }
      "s" "x" _ "i" "2" (.obj []) rfl rfl
      (by simp [headerString, getHeader, envString])
      (by simp [headerString, getHeader, envString])
      (by simp [headerString, getHeader, envString]) rfl rfl).2 (hxne _)

/-- C3 counterexample: the Tap webhook handler requires TAP_WEBHOOK_SECRET,
yet with the secret absent it returns 400 — its missing-secret throw happens
inside the try block and is caught as a payload error — where the claim
demands 500. -/
theorem tap_missing_secret_yields_400 :
    (tapWebhookHandler (fun _ _ => { isValid := true }) {}
      { body := some "\x7b\x7d" }).status = 400
    ∧ (tapWebhookHandler (fun _ _ => { isValid := true }) {}
      { body := some "\x7b\x7d" }).status ≠ 500 := by
  exact ⟨rfl, by decide⟩

/-- C3 (amended): with the provider's webhook secret absent, Stripe, Polar,
DodoPayments and LemonSqueezy return 500 on every request; Creem returns 500
once its earlier guards pass (a POST carrying a creem-signature header);
Tap never returns 500 — its missing-secret error is caught and mapped to
400 — and no handler raises to the HTTP layer. -/
theorem missing_webhook_secret_responses :
    ∀ env req,
      (envString env.stripeWebhookSecret = none →
        (stripeWebhookHandler env req).status = 500)
      ∧ (envString env.polarWebhookSecret = none →
        (polarWebhookHandler env req).status = 500)
      ∧ (envString env.dodoWebhookSecret = none →
        (dodoWebhookHandler env req).status = 500)
      ∧ (envString env.lemonWebhookSecret = none →
        (lemonWebhookHandler env req).status = 500)
      ∧ (∀ sig, envString env.creemWebhookSecret = none → req.method = "POST" →
          headerString req.headers "creem-signature" = some sig →
          (creemWebhookHandler env req).status = 500)
      ∧ (∀ verify, envString env.tapWebhookSecret = none →
          (tapWebhookHandler verify env req).status = 400) := by
  intro env req
  refine ⟨?_, ?_, ?_, ?_, ?_, ?_⟩
  · intro h
    simp [stripeWebhookHandler, h]
  · intro h
    simp [polarWebhookHandler, h]
  · intro h
    simp [dodoWebhookHandler, h]
  · intro h
    simp [lemonWebhookHandler, h]
  · intro sig h hm hsig
    simp [creemWebhookHandler, h, hm, hsig]
  · intro verify h
    cases hb : req.body <;> simp [tapWebhookHandler, h, hb]

/-- C3 witness: the missing-secret response theorem applied to the empty
environment and a concrete signed POST request. -/
theorem missing_webhook_secret_responses_witness :
    (stripeWebhookHandler {}
      { headers := [("creem-signature", "sig")], body := some "\x7b\x7d" }).status = 500
    ∧ (polarWebhookHandler {}
      { headers := [("creem-signature", "sig")], body := some "\x7b\x7d" }).status = 500
    ∧ (dodoWebhookHandler {}
      { headers := [("creem-signature", "sig")], body := some "\x7b\x7d" }).status = 500
    ∧ (lemonWebhookHandler {}
      { headers := [("creem-signature", "sig")], body := some "\x7b\x7d" }).status = 500
    ∧ (creemWebhookHandler {}
      { headers := [("creem-signature", "sig")], body := some "\x7b\x7d" }).status = 500
    ∧ (tapWebhookHandler (fun _ _ => { isValid := true }) {}
      { headers := [("creem-signature", "sig")], body := some "\x7b\x7d" }).status = 400 := by
  obtain ⟨h1, h2, h3, h4, h5, h6⟩ := missing_webhook_secret_responses {}
    { headers := [("creem-signature", "sig")], body := some "\x7b\x7d" }
  exact ⟨h1 rfl, h2 rfl, h3 rfl, h4 rfl, h5 "sig" rfl rfl rfl, h6 _ rfl⟩

/-- The DodoPayments end-to-end scenario body of the spec. -/
def dodoScenarioBody : String :=
  "\x7b\"type\":\"subscription.created\",\"data\":\x7b\x7d\x7d"

/-- The composite message the scenario signature is computed over:
webhook-id, webhook-timestamp and body joined by dots. -/
def dodoScenarioPayload : String :=
  "wh_1" ++ "." ++ "1700000000" ++ "." ++ dodoScenarioBody

/-- The scenario request with a given webhook-signature header value. -/
def dodoScenarioReq (sig : String) : HttpRequest :=
  { method := "POST",
    headers := [("webhook-id", "wh_1"), ("webhook-timestamp", "1700000000"),
      ("webhook-signature", sig)],
    body := some dodoScenarioBody }

/-- C4 counterexample: the empty string is a signature value other than the
correct digest, yet the handler answers it with 400 (missing-header branch,
the header being falsy), not the claimed 401. -/
theorem dodo_empty_signature_not_401 :
    ("" : String) ≠ hmacHex "whsec" dodoScenarioPayload
    ∧ (dodoWebhookHandler { dodoWebhookSecret := some "whsec" }
        (dodoScenarioReq "")).status = 400
    ∧ (dodoWebhookHandler { dodoWebhookSecret := some "whsec" }
        (dodoScenarioReq "")).status ≠ 401 := by
  refine ⟨fun h => hmacHex_ne_empty "whsec" dodoScenarioPayload h.symm, rfl, by decide⟩

/-- C4 (amended): in the DodoPayments end-to-end scenario, the correct
composite digest as webhook-signature yields 204 and any other non-empty
signature value yields 401; the empty string is treated as a missing header
and yields 400. -/
theorem dodo_end_to_end :
    ∀ env secret sig,
      envString env.dodoWebhookSecret = some secret →
      (sig = hmacHex secret dodoScenarioPayload →
        (dodoWebhookHandler env (dodoScenarioReq sig)).status = 204)
      ∧ (sig ≠ hmacHex secret dodoScenarioPayload → sig ≠ "" →
        (dodoWebhookHandler env (dodoScenarioReq sig)).status = 401)
      ∧ (sig = "" →
        (dodoWebhookHandler env (dodoScenarioReq sig)).status = 400) := by
  intro env secret sig hk
  have hparse : jsonParse "\x7b\"type\":\"subscription.created\",\"data\":\x7b\x7d\x7d"
      = some (.obj [("type", .str "subscription.created"), ("data", .obj [])]) := rfl
  have h1 : envString (some "wh_1") = some "wh_1" := rfl
  have h2 : envString (some "1700000000") = some "1700000000" := rfl
  refine ⟨?_, ?_, ?_⟩
  · intro he
    subst he
    simp [dodoWebhookHandler, dodoScenarioReq, hk, headerString, getHeader, h1, h2,
      envString_hmacHex, dodoScenarioBody, dodoScenarioPayload, hparse]
  · intro hne hne2
    have h3 : envString (some sig) = some sig := by simp [envString, hne2]
    simp [dodoScenarioPayload, dodoScenarioBody] at hne
    simp [dodoWebhookHandler, dodoScenarioReq, hk, headerString, getHeader, h1, h2, h3,
      dodoScenarioBody, hne]
  · intro he
    subst he
    have h0 : envString (some "") = none := rfl
    simp [dodoWebhookHandler, dodoScenarioReq, hk, headerString, getHeader, h1, h2, h0]

/-- C4 witness: the scenario theorem applied with secret "whsec" to the
correct signature, to "deadbeef" and to the empty signature. -/
theorem dodo_end_to_end_witness :
    (dodoWebhookHandler { dodoWebhookSecret := some "whsec" }
      (dodoScenarioReq (hmacHex "whsec" dodoScenarioPayload))).status = 204
    ∧ (dodoWebhookHandler { dodoWebhookSecret := some "whsec" }
      (dodoScenarioReq "deadbeef")).status = 401
    ∧ (dodoWebhookHandler { dodoWebhookSecret := some "whsec" }
      (dodoScenarioReq "")).status = 400 := by
  have hne : ("deadbeef" : String) ≠ hmacHex "whsec" dodoScenarioPayload := by
    intro he
    have h64 := hmacHex_utf8Len "whsec" dodoScenarioPayload
    rw [← he] at h64
    exact absurd h64 (by decide)
  refine ⟨(dodo_end_to_end { dodoWebhookSecret := some "whsec" } "whsec" _ rfl).1 rfl,
    (dodo_end_to_end { dodoWebhookSecret := some "whsec" } "whsec" _ rfl).2.1 hne (by decide),
    (dodo_end_to_end { dodoWebhookSecret := some "whsec" } "whsec" _ rfl).2.2 rfl⟩

/-- The LemonSqueezy end-to-end scenario body of the spec. -/
def lsScenarioBody : String :=
  "\x7b\"meta\":\x7b\"event_name\":\"subscription_created\"\x7d,\"data\":\x7b\x7d\x7d"

/-- C5: with secret "shh" configured, the scenario body signed with its own
hex HMAC under "shh" is answered with 204, and the same body with signature
"deadbeef" with 400 (timingSafeEqual throws on the length mismatch and the
catch maps it to 400). -/
theorem lemon_end_to_end :
    ∀ env, env.lemonWebhookSecret = some "shh" →
      (lemonWebhookHandler env
        { headers := [("x-signature", hmacHex "shh" lsScenarioBody)],
          body := some lsScenarioBody }).status = 204
      ∧ (lemonWebhookHandler env
        { headers := [("x-signature", "deadbeef")],
          body := some lsScenarioBody }).status = 400 := by
  intro env h
  have hparse : jsonParse lsScenarioBody
      = some (.obj [("meta", .obj [("event_name", .str "subscription_created")]),
          ("data", .obj [])]) := rfl
  have hdb : strUtf8Len "deadbeef" = 8 := rfl
  constructor
  · simp [lemonWebhookHandler, h, envString, getHeader, hparse, lemonDispatchOk,
      objLookup]
  · have hsig : getHeader [("x-signature", "deadbeef")] "x-signature" = some "deadbeef" := rfl
    have hlen : strUtf8Len (hmacHex "shh" lsScenarioBody)
        ≠ strUtf8Len "deadbeef" := by
      rw [hmacHex_utf8Len, hdb]
      decide
    simp [lemonWebhookHandler, h, envString, hsig, hlen]

/-- C5 witness: the end-to-end theorem applied to the environment that
configures secret "shh". -/
theorem lemon_end_to_end_witness :
    (lemonWebhookHandler { lemonWebhookSecret := some "shh" }
      { headers := [("x-signature", hmacHex "shh" lsScenarioBody)],
        body := some lsScenarioBody }).status = 204
    ∧ (lemonWebhookHandler { lemonWebhookSecret := some "shh" }
      { headers := [("x-signature", "deadbeef")],
        body := some lsScenarioBody }).status = 400 :=
  lemon_end_to_end { lemonWebhookSecret := some "shh" } rfl

/-- C6: with the secret key configured, every chargeCard run opens with the
tokenization call — its trace is either the tokenize call alone or tokenize
followed by the charge — and when the tokenization response is a failure the
run raises the provider error and the charge call is never attempted. -/
theorem tap_chargeCard_tokenize_then_charge :
    ∀ env w p k,
      envString env.tapSecretKey = some k →
      ((chargeCard env w p).2 = [TapNetCall.tokens p.cardId p.customerId]
        ∨ (chargeCard env w p).2
            = [TapNetCall.tokens p.cardId p.customerId,
               TapNetCall.charges p.amount p.currency w.tokenId p.customerId
                 p.paymentAgreementId (p.description.getD "Recurring payment")])
      ∧ (w.tokenOk = false →
          chargeCard env w p
            = (.error (.apiError ("Tap Token API error: " ++ w.tokenErrorBody)),
               [TapNetCall.tokens p.cardId p.customerId])) := by
  intro env w p k hk
  constructor
  · cases ht : w.tokenOk with
    | false =>
      left
      simp [chargeCard, hk, ht]
    | true =>
      right
      cases hc : w.chargeOk <;> simp [chargeCard, hk, ht, hc]
  · intro ht
    simp [chargeCard, hk, ht]

/-- C6 witness: the tokenize-then-charge theorem applied to a failing
tokenization world. -/
theorem tap_chargeCard_tokenize_then_charge_witness :
    (chargeCard { tapSecretKey := some "sk" }
        { tokenOk := false, tokenErrorBody := "boom" }
        { customerId := "cus_1", cardId := "card_1", paymentAgreementId := "pa_1",
          amount := 5, currency := "USD" }).2
      = [TapNetCall.tokens "card_1" "cus_1"]
    ∧ chargeCard { tapSecretKey := some "sk" }
        { tokenOk := false, tokenErrorBody := "boom" }
        { customerId := "cus_1", cardId := "card_1", paymentAgreementId := "pa_1",
          amount := 5, currency := "USD" }
      = (.error (.apiError ("Tap Token API error: " ++ "boom")),
         [TapNetCall.tokens "card_1" "cus_1"]) := by
  obtain ⟨htrace, hfail⟩ := tap_chargeCard_tokenize_then_charge
    { tapSecretKey := some "sk" }
    { tokenOk := false, tokenErrorBody := "boom" }
    { customerId := "cus_1", cardId := "card_1", paymentAgreementId := "pa_1",
      amount := 5, currency := "USD" } "sk" rfl
  refine ⟨?_, hfail rfl⟩
  rw [hfail rfl]

/-- The C7 counterexample payload: card, customer and payment_agreement all
carry an id, but card.id is the empty string. -/
def savedCardEmptyIdPayload : List (String × Json) :=
  [("card", .obj [("id", .str "")]),
   ("customer", .obj [("id", .str "cus_1")]),
   ("payment_agreement", .obj [("id", .str "pa_1")])]

/-- C7 counterexample: all three identifiers are present in the payload, yet
extraction returns absent, because the source tests them with JavaScript
truthiness and the empty-string card id is falsy. -/
theorem extract_saved_card_empty_id_counterexample :
    (jsOptField (objLookup savedCardEmptyIdPayload "card") "id").isSome = true
    ∧ (jsOptField (objLookup savedCardEmptyIdPayload "customer") "id").isSome = true
    ∧ (jsOptField (objLookup savedCardEmptyIdPayload "payment_agreement") "id").isSome = true
    ∧ extractSavedCardFromWebhook savedCardEmptyIdPayload = none :=
  ⟨rfl, rfl, rfl, rfl⟩

/-- C7 (amended): extraction returns absent — never an error — whenever any
of card.id, customer.id or payment_agreement.id is missing or carries a
falsy value (empty string, 0, false or null); when all three are present
with truthy values it returns exactly those three identifiers. -/
theorem extract_saved_card_amended :
    ∀ webhookData : List (String × Json),
      ((jsTruthyO (jsOptField (objLookup webhookData "card") "id") = false
        ∨ jsTruthyO (jsOptField (objLookup webhookData "customer") "id") = false
        ∨ jsTruthyO (jsOptField (objLookup webhookData "payment_agreement") "id") = false) →
        extractSavedCardFromWebhook webhookData = none)
      ∧ (∀ c u q,
          jsOptField (objLookup webhookData "card") "id" = some c →
          jsOptField (objLookup webhookData "customer") "id" = some u →
          jsOptField (objLookup webhookData "payment_agreement") "id" = some q →
          jsTruthy c = true → jsTruthy u = true → jsTruthy q = true →
          extractSavedCardFromWebhook webhookData = some ⟨u, c, q⟩) := by
  intro webhookData
  constructor
  · intro h
    rcases h with h | h | h <;> simp [extractSavedCardFromWebhook, h]
  · intro c u q hc hu hq tc tu tq
    simp [extractSavedCardFromWebhook, hc, hu, hq, jsTruthyO, tc, tu, tq]

/-- C7 witness: the amended extraction theorem applied to a payload with all
three ids truthy, to one with payment_agreement missing, and to one whose
card id is the JSON numeral 0e5 — the number zero, hence falsy. -/
theorem extract_saved_card_amended_witness :
    extractSavedCardFromWebhook
      [("card", .obj [("id", .str "card_1")]),
       ("customer", .obj [("id", .str "cus_1")]),
       ("payment_agreement", .obj [("id", .str "pa_1")])]
      = some ⟨.str "cus_1", .str "card_1", .str "pa_1"⟩
    ∧ extractSavedCardFromWebhook
      [("card", .obj [("id", .str "card_1")]),
       ("customer", .obj [("id", .str "cus_1")])] = none
    ∧ extractSavedCardFromWebhook
      [("card", .obj [("id", .num "0e5")]),
       ("customer", .obj [("id", .str "cus_1")]),
       ("payment_agreement", .obj [("id", .str "pa_1")])] = none := by
  refine ⟨(extract_saved_card_amended _).2 (.str "card_1") (.str "cus_1") (.str "pa_1")
    rfl rfl rfl rfl rfl rfl, (extract_saved_card_amended _).1 (Or.inr (Or.inr rfl)),
    (extract_saved_card_amended _).1 (Or.inl rfl)⟩

/-- C8: for each provider requiring a secret or API key, createCheckoutLink
with that key absent throws the missing-env configuration error and the
outbound call list is empty. -/
theorem checkout_missing_secret_no_network_call :
    ∀ env w p,
      (envString env.stripeSecretKey = none →
        stripeCreateCheckoutLink env w p = (.error (.missingEnv "STRIPE_SECRET_KEY"), []))
      ∧ (envString env.lemonApiKey = none →
        lemonCreateCheckoutLink env w p = (.error (.missingEnv "LEMONSQUEEZY_API_KEY"), []))
      ∧ (envString env.polarAccessToken = none →
        polarCreateCheckoutLink env w p = (.error (.missingEnv "POLAR_ACCESS_TOKEN"), []))
      ∧ (envString env.creemApiKey = none →
        creemCreateCheckoutLink env w p = (.error (.missingEnv "CREEM_API_KEY"), []))
      ∧ (envString env.dodoApiKey = none →
        dodoCreateCheckoutLink env w p = (.error (.missingEnv "DODO_PAYMENTS_API_KEY"), []))
      ∧ (envString env.tapSecretKey = none →
        tapCreateCheckoutLink env w p = (.error (.missingEnv "TAP_SECRET_KEY"), [])) := by
  intro env w p
  refine ⟨?_, ?_, ?_, ?_, ?_, ?_⟩ <;> intro h
  · simp [stripeCreateCheckoutLink, h]
  · simp [lemonCreateCheckoutLink, h]
  · simp [polarCreateCheckoutLink, h]
  · simp [creemCreateCheckoutLink, h]
  · simp [dodoCreateCheckoutLink, h]
  · simp [tapCreateCheckoutLink, h]

/-- C8 witness: the missing-secret checkout theorem applied to the empty
environment. -/
theorem checkout_missing_secret_no_network_call_witness :
    stripeCreateCheckoutLink {} {} { type := .oneTime, productId := "p" }
      = (.error (.missingEnv "STRIPE_SECRET_KEY"), [])
    ∧ lemonCreateCheckoutLink {} {} { type := .oneTime, productId := "p" }
      = (.error (.missingEnv "LEMONSQUEEZY_API_KEY"), [])
    ∧ polarCreateCheckoutLink {} {} { type := .oneTime, productId := "p" }
      = (.error (.missingEnv "POLAR_ACCESS_TOKEN"), [])
    ∧ creemCreateCheckoutLink {} {} { type := .oneTime, productId := "p" }
      = (.error (.missingEnv "CREEM_API_KEY"), [])
    ∧ dodoCreateCheckoutLink {} {} { type := .oneTime, productId := "p" }
      = (.error (.missingEnv "DODO_PAYMENTS_API_KEY"), [])
    ∧ tapCreateCheckoutLink {} {} { type := .oneTime, productId := "p" }
      = (.error (.missingEnv "TAP_SECRET_KEY"), []) := by
  obtain ⟨h1, h2, h3, h4, h5, h6⟩ := checkout_missing_secret_no_network_call {} {}
    { type := .oneTime, productId := "p" }
  exact ⟨h1 rfl, h2 rfl, h3 rfl, h4 rfl, h5 rfl, h6 rfl⟩

/-- A byte-level infix test: does the pattern occur inside the string? -/
def listInfix (pat s : List Char) : Bool :=
  (List.range (s.length + 1)).any fun i => pat.isPrefixOf (s.drop i)

/-- Does a JSON key name a quantity-like field? -/
def mentionsQuantity (k : String) : Bool :=
  listInfix "quantity".data k.data || listInfix "qty".data k.data
  || listInfix "unit".data k.data || listInfix "seat".data k.data

/-- A fully populated checkout request with seats absent. -/
def polarNoSeatsParams : CheckoutParams :=
  { type := .subscription, productId := "prod_1", email := some "u@example.com",
    name := some "U Ser", redirectUrl := some "https://r.example",
    customerId := some "cus_1", organizationId := some "org_1",
    userId := some "usr_1", trialPeriodDays := some 7, seats := none }

/-- C9 counterexample: with seats absent, the Polar checkout body carries no
quantity, units or seats field at all — no key of the serialized request even
mentions a quantity. -/
theorem polar_checkout_no_quantity_field :
    polarNoSeatsParams.seats = none
    ∧ ((polarAllKeys (polarCheckoutBody polarNoSeatsParams)).all
        fun k => !(mentionsQuantity k)) = true :=
  ⟨rfl, by decide⟩

/-- C9 (amended): with seats absent, Stripe, Creem, DodoPayments and
LemonSqueezy send quantity 1 in their respective fields and Tap sends the
metadata string "1"; the Polar request carries no quantity-like field at
all, and Console makes no outbound call. -/
theorem checkout_quantity_defaults :
    ∀ p : CheckoutParams, p.seats = none →
      (("line_items[0][quantity]", "1") ∈ stripeCheckoutParamsBody p)
      ∧ (creemCheckoutBody p).units = 1
      ∧ (dodoCheckoutBody p).product_cart = [(p.productId, 1)]
      ∧ (∀ storeId, (lemonCheckoutBody storeId p).variant_quantities
          = [(parseInt10 p.productId, 1)])
      ∧ (∀ now, ("quantity", "1") ∈ (tapCheckoutBody now p).metadata)
      ∧ ((polarAllKeys (polarCheckoutBody p)).all fun k => !(mentionsQuantity k)) = true
      ∧ (∀ env w, (consoleCreateCheckoutLink env w p).2 = []) := by
  intro p h
  have hntoa : ntoa 1 = "1" := rfl
  refine ⟨?_, ?_, ?_, ?_, ?_, ?_, ?_⟩
  · simp [stripeCheckoutParamsBody, h, hntoa]
  · simp [creemCheckoutBody, h]
  · simp [dodoCheckoutBody, h]
  · intro storeId
    simp [lemonCheckoutBody, h]
  · intro now
    simp [tapCheckoutBody, h, hntoa]
  · rcases hcus : (if optStrTruthy p.customerId then p.customerId else none) with _ | v <;>
      cases horg : optStrTruthy p.organizationId <;>
      cases husr : optStrTruthy p.userId <;>
      simp [polarAllKeys, polarBodyKeys, polarCheckoutBody, hcus, horg, husr] <;>
      decide
  · intro env w
    rfl

/-- C9 witness: the quantity-defaults theorem applied to a fully populated
request with seats absent. -/
theorem checkout_quantity_defaults_witness :
    (("line_items[0][quantity]", "1") ∈ stripeCheckoutParamsBody polarNoSeatsParams)
    ∧ (creemCheckoutBody polarNoSeatsParams).units = 1
    ∧ (dodoCheckoutBody polarNoSeatsParams).product_cart = [("prod_1", 1)]
    ∧ (lemonCheckoutBody "store_1" polarNoSeatsParams).variant_quantities
        = [(parseInt10 "prod_1", 1)]
    ∧ (("quantity", "1") ∈ (tapCheckoutBody 0 polarNoSeatsParams).metadata)
    ∧ ((polarAllKeys (polarCheckoutBody polarNoSeatsParams)).all
        fun k => !(mentionsQuantity k)) = true
    ∧ (consoleCreateCheckoutLink {} {} polarNoSeatsParams).2 = [] := by
  obtain ⟨h1, h2, h3, h4, h5, h6, h7⟩ := checkout_quantity_defaults polarNoSeatsParams rfl
  exact ⟨h1, h2, h3, h4 "store_1", h5 0, h6, h7 {} {}⟩

/-- C10: the Tap checkout charge body always carries amount 0 and currency
"USD", whatever the request's product, type or seats — the price is never
derived from the input. -/
theorem tap_checkout_constant_amount_currency :
    ∀ now p, (tapCheckoutBody now p).amount = 0
      ∧ (tapCheckoutBody now p).currency = "USD" :=
  fun _ _ => ⟨rfl, rfl⟩

end XyzPayment
